import Mathlib

/-!
Verification development for the FootPulse survey scoring and analytics
aggregation engine.

The definitions below are a shallow embedding of the TypeScript source:

* `calculateWeightedScore` — src/components/SurveyForm.tsx, lines 36-50;
* `calculateWeightedScoreFixed10` — the duplicated scoring variant in
  src/unnamed/part_004, lines 28-42;
* `playerResponses`, `trendGroups`, `trendData`, `trendComparison`,
  `radarEntries`, `radarData` — the analytics component in
  src/unnamed/part_003 (lines 177-333);
* `filteredData`, `trendByMonthData` — src/components/SurveyAnalytics.tsx
  (lines 140-187);
* `candidatePairs`, `planBulk`, `executeBulk` — the assignment matching
  engine, reachable from the frontend only through the REST calls in
  src/components/Analytics.tsx (`fetchPreview` / `executeBulkAssignment`);
  the engine itself is modelled from the specification (see the doc
  comments there).

JavaScript `number` is modelled as `ℚ` (all numbers arising in the engine
are produced by exact literals, `+`, `*` and `/`); `Math.round` is
modelled as `jsRound x = ⌊x + 1/2⌋`, which matches JavaScript on every
non-NaN input. Division by zero (JavaScript `NaN`/`Infinity`) is mapped
to `0` by the `ℚ` convention; each place where this matters is noted.
JavaScript objects used as string-keyed maps are modelled as association
lists in insertion order, matching `Object.entries` enumeration order.
-/

/-! ## Domain model (src/types.ts) -/

inductive UserRole
  | ADMIN
  | PLAYER
  | GUARDIAN
  | TRAINER
deriving DecidableEq, Repr

/-- src/types.ts `User`. Presentational fields (name, email, mobile,
avatar, position, password, isActive) are omitted: no aggregation code
reads them. -/
structure User where
  id : String
  role : UserRole
  trainerId : Option String := none
  playerId : Option String := none
deriving DecidableEq, Repr

inductive QuestionType
  | RATING
  | MULTIPLE_CHOICE
deriving DecidableEq, Repr

/-- src/types.ts `QuestionOption` (display texts omitted). -/
structure QuestionOption where
  id : String
  value : ℚ
deriving DecidableEq, Repr

/-- src/types.ts `Question` (`type` is renamed `qtype`; display texts
omitted). -/
structure Question where
  id : String
  weight : ℚ
  qtype : QuestionType := QuestionType.RATING
  options : List QuestionOption := []
deriving DecidableEq, Repr

/-- src/types.ts `Category` (Arabic display name omitted). -/
structure Category where
  id : String
  name : String
  weight : ℚ
  questions : List Question
deriving DecidableEq, Repr

/-- src/types.ts `SurveyTemplate` (descriptions omitted). -/
structure SurveyTemplate where
  id : String
  categories : List Category
deriving DecidableEq, Repr

/-- src/types.ts `SurveyResponse`. `answers : Record<string, number>` is
an association list; `date` is omitted (never read by the engine). -/
structure SurveyResponse where
  id : String
  templateId : String
  userId : String
  targetPlayerId : String
  month : String
  answers : List (String × ℚ)
  weightedScore : ℚ
deriving DecidableEq, Repr

inductive AssignmentStatus
  | PENDING
  | COMPLETED
deriving DecidableEq, Repr

/-- src/types.ts `SurveyAssignment`. -/
structure SurveyAssignment where
  id : String
  templateId : String
  assignerId : String
  respondentId : String
  targetId : String
  month : String
  status : AssignmentStatus
deriving DecidableEq, Repr

/-! ## JavaScript helpers -/

/-- `Math.round x` = `⌊x + 1/2⌋` for every non-NaN JavaScript number. -/
def jsRound (x : ℚ) : ℤ := ⌊x + 1/2⌋

/-- Key lookup in a JavaScript object used as a string-keyed map
(`answers[qId]`), modelled on an association list; the head is the
overriding entry, as with `{...prev, [qId]: score}` spreads
re-inserting at the front. -/
def alookup {α : Type} : List (String × α) → String → Option α
  | [], _ => none
  | (k, v) :: rest, key => if key = k then some v else alookup rest key

/-- JavaScript `v || d`: an absent (`undefined`) or zero value falls back
to the default `d` (both are falsy). -/
def jsOrDefault (v : Option ℚ) (d : ℚ) : ℚ :=
  match v with
  | some x => if x = 0 then d else x
  | none => d

/-- `users.find(u => u.id === id)`. -/
def findUser : List User → String → Option User
  | [], _ => none
  | u :: rest, key => if u.id = key then some u else findUser rest key

/-- `templates.find(tpl => tpl.id === id)`. -/
def findTemplate : List SurveyTemplate → String → Option SurveyTemplate
  | [], _ => none
  | t :: rest, key => if t.id = key then some t else findTemplate rest key

/-! ## Scoring engine (src/components/SurveyForm.tsx, lines 36-50)

```
const calculateWeightedScore = () => {
  let totalWeightedScore = 0;
  template.categories.forEach(category => {
    let categoryRawScore = 0;
    let totalQuestionWeights = 0;
    category.questions.forEach(q => {
      const score = answers[q.id] || 0;
      const denominator = score > 5 ? 10 : 5;
      categoryRawScore += (score / denominator) * q.weight;
      totalQuestionWeights += q.weight;
    });
    totalWeightedScore += (categoryRawScore * category.weight) / 100;
  });
  return Math.round(totalWeightedScore);
};
```
(`totalQuestionWeights` is accumulated but never used in this variant.) -/

/-- The inner `forEach` accumulation over a category's questions. -/
def categoryRawScore (answers : List (String × ℚ)) (c : Category) : ℚ :=
  (c.questions.map (fun q =>
    let score := jsOrDefault (alookup answers q.id) 0
    let denominator : ℚ := if 5 < score then 10 else 5
    score / denominator * q.weight)).sum

/-- `totalWeightedScore` just before the final `Math.round`. -/
def weightedTotal (template : SurveyTemplate) (answers : List (String × ℚ)) : ℚ :=
  (template.categories.map (fun category =>
    categoryRawScore answers category * category.weight / 100)).sum

/-- The scoring engine: src/components/SurveyForm.tsx lines 36-50
(the identical heuristic variant also appears in src/unnamed/part_001). -/
def calculateWeightedScore (template : SurveyTemplate)
    (answers : List (String × ℚ)) : ℤ :=
  jsRound (weightedTotal template answers)

/-- The duplicated scoring variant of src/unnamed/part_004, lines 28-42:
fixed `/10` denominator, absent answer defaulted to 5 (`answers[q.id] || 5`),
and the category raw score renormalized by the sum of question weights
(`(categoryRawScore / totalQuestionWeights) * 100`; a category with zero
total question weight divides by zero, which `ℚ` maps to 0). -/
def calculateWeightedScoreFixed10 (template : SurveyTemplate)
    (answers : List (String × ℚ)) : ℤ :=
  jsRound ((template.categories.map (fun category =>
    let catRaw := (category.questions.map (fun q =>
      let score := jsOrDefault (alookup answers q.id) 5
      score / 10 * q.weight)).sum
    let totalQuestionWeights := (category.questions.map (fun q => q.weight)).sum
    let categoryPercentage := catRaw / totalQuestionWeights * 100
    categoryPercentage * category.weight / 100)).sum)

/-! ## Concrete fixtures used by the closed theorems below -/

/-- The template of spec §8, concrete scenario 1: one category of weight
100 with two RATING questions of weights 60 and 40. -/
def scenario1Template : SurveyTemplate :=
  ⟨"t1", [⟨"c1", "Technique", 100,
    [⟨"q1", 60, QuestionType.RATING, []⟩, ⟨"q2", 40, QuestionType.RATING, []⟩]⟩]⟩

/-- A malformed template: its single category has weight 200 (category
weights are consumed as provided, with no renormalization). -/
def overweightTemplate : SurveyTemplate :=
  ⟨"t2", [⟨"c1", "Technique", 200, [⟨"q1", 100, QuestionType.RATING, []⟩]⟩]⟩

/-- A template on which raising an answer from 5 to 6 does not change the
rounded score: the affected question has weight 1. -/
def tinyWeightTemplate : SurveyTemplate :=
  ⟨"t3", [⟨"c1", "Technique", 100, [⟨"q1", 1, QuestionType.RATING, []⟩]⟩]⟩

/-! ## Shared accumulator helpers for the analytics pipelines

The JavaScript components accumulate into records of the shape
`{ [key]: { sum, count } }`:
```
if (!data[key]) data[key] = { sum: 0, count: 0 };
data[key].sum += v;
data[key].count += 1;
```
`bumpEntry` performs the same update on an association list kept in
insertion order (matching `Object.entries` / `Object.values` order). -/

def bumpEntry : List (String × ℚ × ℕ) → String → ℚ → List (String × ℚ × ℕ)
  | [], key, v => [(key, v, 1)]
  | e :: rest, key, v =>
    if e.1 = key then (e.1, e.2.1 + v, e.2.2 + 1) :: rest
    else e :: bumpEntry rest key v

/-- One step of insertion sort on the `String` key (ascending). -/
def insertSortedByKey (x : String × ℤ) : List (String × ℤ) → List (String × ℤ)
  | [] => [x]
  | y :: ys => if x.1 ≤ y.1 then x :: y :: ys else y :: insertSortedByKey x ys

/-- `array.sort((a, b) => a.key.localeCompare(b.key))`: ascending sort on
the `String` key. All call sites below sort lists with pairwise distinct
keys, so any correct ascending sort yields the same list. -/
def sortByKey (l : List (String × ℤ)) : List (String × ℤ) :=
  l.foldr insertSortedByKey []

/-- `set.add(s)` on a JavaScript `Set` kept in insertion order. -/
def insertOnce (l : List String) (s : String) : List String :=
  if s ∈ l then l else l ++ [s]

/-- The last two elements `(l[n-2], l[n-1])` of a list, or `none` when
`l.length < 2`. -/
def lastTwo {α : Type} : List α → Option (α × α)
  | [a, b] => some (a, b)
  | _ :: b :: c :: rest => lastTwo (b :: c :: rest)
  | _ => none

/-! ## Analytics pipeline of src/unnamed/part_003

The component receives the signed-in `user`, the full `users`,
`responses` and `templates` collections, and the filter selection held
in view state: `selectedTrainerIds`, `selectedPlayerIds`,
`selectedMonths` (multi-selects, empty = no restriction except where
noted) and `selectedTemplateId` (`'ALL'` is modelled as `none`). -/

/-- The filter predicate of `playerResponses` (src/unnamed/part_003,
lines 177-201), including the role-based visibility check. In the
JavaScript, `targetPlayer.trainerId && selectedTrainerIds.has(...)`
treats an absent `trainerId` as falsy; ids are assumed nonempty strings,
so only `undefined` is falsy there. -/
def playerResponsesPred (user : User) (users : List User)
    (selTrainers selPlayers selMonths : List String)
    (r : SurveyResponse) : Bool :=
  match findUser users r.targetPlayerId with
  | none => false
  | some targetPlayer =>
    let trainerMatch := selTrainers.isEmpty ||
      (match targetPlayer.trainerId with
       | some tid => selTrainers.contains tid
       | none => false)
    let playerMatch := selPlayers.isEmpty || selPlayers.contains r.targetPlayerId
    let monthMatch := selMonths.isEmpty || selMonths.contains r.month
    let roleMatch :=
      match user.role with
      | UserRole.ADMIN => true
      | UserRole.TRAINER => decide (targetPlayer.trainerId = some user.id)
      | UserRole.GUARDIAN => decide (user.playerId = some targetPlayer.id)
      | UserRole.PLAYER => decide (targetPlayer.id = user.id)
    trainerMatch && playerMatch && monthMatch && roleMatch

/-- `playerResponses` (src/unnamed/part_003, lines 177-201): the data
every per-selection chart and stat of the component is derived from. -/
def playerResponses (user : User) (users : List User)
    (responses : List SurveyResponse)
    (selTrainers selPlayers selMonths : List String) : List SurveyResponse :=
  responses.filter (playerResponsesPred user users selTrainers selPlayers selMonths)

/-- The `monthlyData` accumulation of `trendData` (src/unnamed/part_003,
lines 222-236): per month, the sum and count of `weightedScore`. -/
def trendGroups (rs : List SurveyResponse) : List (String × ℚ × ℕ) :=
  rs.foldl (fun m r => bumpEntry m r.month r.weightedScore) []

/-- `trendData`: `(month, Math.round(sum / count))`, ascending by
month. -/
def trendData (user : User) (users : List User)
    (responses : List SurveyResponse)
    (selTrainers selPlayers selMonths : List String) : List (String × ℤ) :=
  sortByKey ((trendGroups
    (playerResponses user users responses selTrainers selPlayers selMonths)).map
    (fun e => (e.1, jsRound (e.2.1 / (e.2.2 : ℚ)))))

/-- `trendComparison` (src/unnamed/part_003, lines 324-333; the identical
code also appears in src/components/Analytics.tsx, lines 175-184):
`null` when fewer than two months of trend data exist; otherwise the pair
`(Math.abs(current - last), current - last >= 0)` built from the last two
entries of `trendData` (the displayed `val` is that absolute difference,
rendered with `toFixed(1)`). -/
def trendComparison (user : User) (users : List User)
    (responses : List SurveyResponse)
    (selTrainers selPlayers selMonths : List String) : Option (ℤ × Bool) :=
  match lastTwo (trendData user users responses selTrainers selPlayers selMonths) with
  | none => none
  | some (last, current) =>
    some (|current.2 - last.2|, decide (0 ≤ current.2 - last.2))

/-- `(answer / denominator) * 100` with the scale heuristic
`denominator = answer > 5 ? 10 : 5` (src/unnamed/part_003, lines
260-261; the same normalization appears in src/components/Analytics.tsx,
lines 103-104). -/
def qNormalized100 (answer : ℚ) : ℚ :=
  answer / (if 5 < answer then 10 else 5) * 100

/-- The per-category inner loop of `radarData`: `catScoreSum` over the
answered questions divided by `qAnswerCount`, or `none` when
`qAnswerCount == 0`. -/
def catScore (answers : List (String × ℚ)) (cat : Category) : Option ℚ :=
  let answered := cat.questions.filterMap (fun q => (alookup answers q.id).map qNormalized100)
  if answered.isEmpty then none
  else some (answered.sum / (answered.length : ℚ))

/-- The three accumulators threaded through `radarData`'s outer loops:
`allUniqueCats`, `individualCategories` and `squadCategories`. -/
structure RadarAcc where
  cats : List String
  ind : List (String × ℚ × ℕ)
  sqd : List (String × ℚ × ℕ)
deriving Repr

/-- The body of `template.categories.forEach(cat => ...)` inside
`radarData` (src/unnamed/part_003, lines 251-296). The category name is
recorded in `allUniqueCats` before any guard; the accumulators are
touched only when the category has at least one answered question and
the target user resolves. -/
def radarCatStep (user : User) (users : List User)
    (selTrainers selPlayers : List String) (res : SurveyResponse)
    (acc : RadarAcc) (cat : Category) : RadarAcc :=
  let cats := insertOnce acc.cats cat.name
  match catScore res.answers cat with
  | none => ⟨cats, acc.ind, acc.sqd⟩
  | some finalScore =>
    match findUser users res.targetPlayerId with
    | none => ⟨cats, acc.ind, acc.sqd⟩
    | some targetPlayer =>
      let matchesTrainer := selTrainers.isEmpty ||
        (match targetPlayer.trainerId with
         | some tid => selTrainers.contains tid
         | none => false)
      let matchesPlayer := selPlayers.isEmpty || selPlayers.contains res.targetPlayerId
      let ind := if matchesTrainer && matchesPlayer
        then bumpEntry acc.ind cat.name finalScore else acc.ind
      let isSquadMember :=
        match user.role with
        | UserRole.ADMIN => true
        | UserRole.TRAINER => decide (targetPlayer.trainerId = some user.id)
        | _ => true
      let sqd := if isSquadMember then bumpEntry acc.sqd cat.name finalScore else acc.sqd
      ⟨cats, ind, sqd⟩

/-- The body of `responses.forEach(res => ...)` inside `radarData`:
template and month guards, then the per-category loop over the resolved
template. -/
def radarResStep (user : User) (users : List User)
    (templates : List SurveyTemplate) (selTemplateId : Option String)
    (selMonths selTrainers selPlayers : List String)
    (acc : RadarAcc) (res : SurveyResponse) : RadarAcc :=
  if (match selTemplateId with
      | some tid => res.templateId != tid
      | none => false) then acc
  else if !selMonths.isEmpty && !selMonths.contains res.month then acc
  else match findTemplate templates res.templateId with
    | none => acc
    | some template =>
      template.categories.foldl (radarCatStep user users selTrainers selPlayers res) acc

/-- The fully accumulated `radarData` state after the `responses`
loop. -/
def radarAcc (user : User) (users : List User)
    (responses : List SurveyResponse) (templates : List SurveyTemplate)
    (selTemplateId : Option String)
    (selMonths selTrainers selPlayers : List String) : RadarAcc :=
  responses.foldl
    (radarResStep user users templates selTemplateId selMonths selTrainers selPlayers)
    ⟨[], [], []⟩

/-- One point of the competency radar: `subject` (category name), `A`
(selection average) and `B` (squad/benchmark average). The constant
`fullMark: 100` of the source is display-only and omitted. -/
structure RadarPoint where
  subject : String
  A : ℤ
  B : ℤ
deriving DecidableEq, Repr

/-- `ind ? Math.round(ind.sum / ind.count) : 0`. In src/unnamed/part_003
an entry is created only together with its first sample, so `count ≥ 1`
whenever the entry exists and the division is never 0/0. -/
def averageOf : Option (ℚ × ℕ) → ℤ
  | some (s, c) => jsRound (s / (c : ℚ))
  | none => 0

/-- The radar points before the final filter (the
`Array.from(allUniqueCats).map(...)` of src/unnamed/part_003, lines
299-307). -/
def radarEntries (user : User) (users : List User)
    (responses : List SurveyResponse) (templates : List SurveyTemplate)
    (selTemplateId : Option String)
    (selMonths selTrainers selPlayers : List String) : List RadarPoint :=
  let acc := radarAcc user users responses templates selTemplateId
    selMonths selTrainers selPlayers
  acc.cats.map (fun catName =>
    ⟨catName, averageOf (alookup acc.ind catName), averageOf (alookup acc.sqd catName)⟩)

/-- `radarData` (src/unnamed/part_003, lines 239-309; the same final
filter `.filter(d => d.A > 0 || d.B > 0)` appears in
src/components/Analytics.tsx, lines 145-154). -/
def radarData (user : User) (users : List User)
    (responses : List SurveyResponse) (templates : List SurveyTemplate)
    (selTemplateId : Option String)
    (selMonths selTrainers selPlayers : List String) : List RadarPoint :=
  (radarEntries user users responses templates selTemplateId
    selMonths selTrainers selPlayers).filter
    (fun d => decide (0 < d.A) || decide (0 < d.B))

/-! ## Analytics pipeline of src/components/SurveyAnalytics.tsx

This component receives the raw `users`, `templates` and `responses`
collections and five multi-select filters (`selectedUsers`,
`selectedMonths`, `selectedSurveys`, `selectedCategories`,
`selectedQuestions`); an empty selection means "no restriction". It has
no `user` prop: no role-based visibility scoping is applied anywhere in
it. -/

/-- `filteredData` (src/components/SurveyAnalytics.tsx, lines
140-147). -/
def filteredData (responses : List SurveyResponse)
    (selUsers selMonths selSurveys : List String) : List SurveyResponse :=
  responses.filter (fun r =>
    (selUsers.isEmpty || selUsers.contains r.targetPlayerId) &&
    (selMonths.isEmpty || selMonths.contains r.month) &&
    (selSurveys.isEmpty || selSurveys.contains r.templateId))

/-- The raw answers collected for one response by the inner loops of
`trendByMonthData` (src/components/SurveyAnalytics.tsx, lines 155-172):
for every category passing the category filter and every question
passing the question filter, the value `r.answers[q.id]` whenever it is
present. The values are the **raw** answers — no normalization is
applied to them. -/
def selectedRawAnswers (templates : List SurveyTemplate)
    (selCats selQs : List String) (r : SurveyResponse) : List ℚ :=
  match findTemplate templates r.templateId with
  | none => []
  | some tpl =>
    tpl.categories.flatMap (fun cat =>
      if selCats.isEmpty || selCats.contains cat.id then
        cat.questions.filterMap (fun q =>
          if selQs.isEmpty || selQs.contains q.id then alookup r.answers q.id
          else none)
      else [])

/-- The value one response contributes to its month in
`trendByMonthData`: `totalValue / qCount` when `qCount > 0`, else the
precomputed `r.weightedScore` (lines 174-180). -/
def responseMetricValue (templates : List SurveyTemplate)
    (selCats selQs : List String) (r : SurveyResponse) : ℚ :=
  let answered := selectedRawAnswers templates selCats selQs r
  if answered.isEmpty then r.weightedScore
  else answered.sum / (answered.length : ℚ)

/-- `trendByMonthData` (src/components/SurveyAnalytics.tsx, lines
150-187): group the filtered responses by month, average the
per-response metric values, round, and sort ascending by month. -/
def trendByMonthData (responses : List SurveyResponse)
    (templates : List SurveyTemplate)
    (selUsers selMonths selSurveys selCats selQs : List String) :
    List (String × ℤ) :=
  sortByKey (((filteredData responses selUsers selMonths selSurveys).foldl
    (fun m r => bumpEntry m r.month (responseMetricValue templates selCats selQs r)) []).map
    (fun e => (e.1, jsRound (e.2.1 / (e.2.2 : ℚ)))))

/-! ## Assignment matching engine (spec §4.2)

The frontend reaches this engine only through the REST endpoints
`POST /assignments/preview` and `POST /assignments`, called from
`fetchPreview` and `executeBulkAssignment` in
src/components/Analytics.tsx (lines 389-444); the engine's own code is
not under src/. The definitions below are therefore modelled from the
specification. -/

/-- Modelled from the spec: the bulk-policy variants of §4.2 (the
frontend sends them as `bulk_type` or as explicit
`respondent_ids`/`target_ids` for MANUAL mode). -/
inductive BulkPolicy
  | MANUAL (respondentIds targetIds : List String)
  | GUARDIANS_TO_CHILDREN
  | GUARDIANS_TO_COACHES
  | PLAYERS_TO_COACHES
  | COACHES_TO_PLAYERS
deriving DecidableEq, Repr

/-- Modelled from the spec: candidate (respondent, target) pairs per
policy (§4.2). Users lacking the required relationship are silently
excluded; MANUAL is the Cartesian product of the two id sets resolved
against the roster. -/
def candidatePairs (users : List User) : BulkPolicy → List (User × User)
  | BulkPolicy.MANUAL respondentIds targetIds =>
    (users.filter (fun u => respondentIds.contains u.id)).flatMap (fun r =>
      (users.filter (fun u => targetIds.contains u.id)).map (fun t => (r, t)))
  | BulkPolicy.GUARDIANS_TO_CHILDREN =>
    users.filterMap (fun g =>
      if g.role = UserRole.GUARDIAN then
        g.playerId.bind (fun pid => (findUser users pid).map (fun p => (g, p)))
      else none)
  | BulkPolicy.GUARDIANS_TO_COACHES =>
    users.filterMap (fun g =>
      if g.role = UserRole.GUARDIAN then
        g.playerId.bind (fun pid => (findUser users pid).bind (fun p =>
          p.trainerId.bind (fun tid => (findUser users tid).map (fun c => (g, c)))))
      else none)
  | BulkPolicy.PLAYERS_TO_COACHES =>
    users.filterMap (fun p =>
      if p.role = UserRole.PLAYER then
        p.trainerId.bind (fun tid => (findUser users tid).map (fun c => (p, c)))
      else none)
  | BulkPolicy.COACHES_TO_PLAYERS =>
    (users.filter (fun u => u.role = UserRole.TRAINER)).flatMap (fun tr =>
      (users.filter (fun p =>
        p.role = UserRole.PLAYER ∧ p.trainerId = some tr.id)).map (fun p => (tr, p)))

/-- Modelled from the spec: an Assignment already exists for the exact
tuple (templateId, respondent.id, target.id, month) (§4.2,
deduplication). -/
def assignmentExists (existing : List SurveyAssignment)
    (templateId month : String) (pr : User × User) : Bool :=
  existing.any (fun a =>
    a.templateId = templateId ∧ a.respondentId = pr.1.id ∧
    a.targetId = pr.2.id ∧ a.month = month)

/-- The preview partition returned by `POST /assignments/preview`. -/
structure BulkPlan where
  created : List (User × User)
  alreadyExists : List (User × User)
deriving Repr

/-- Modelled from the spec: the preview step — classify every candidate
pair against the `existingAssignments` snapshot, before any
persistence (§4.2). -/
def planBulk (users : List User) (policy : BulkPolicy)
    (templateId month : String) (existing : List SurveyAssignment) : BulkPlan :=
  let cands := candidatePairs users policy
  ⟨cands.filter (fun pr => !assignmentExists existing templateId month pr),
   cands.filter (fun pr => assignmentExists existing templateId month pr)⟩

/-- Modelled from the spec: the execute step — persist exactly the
`created` partition of the preview, each as a new PENDING Assignment
(ids are assigned by the persistence layer, §6; `assignerId` is the
operator, irrelevant to the matching engine). -/
def executeBulk (users : List User) (policy : BulkPolicy)
    (templateId month assignerId : String)
    (existing : List SurveyAssignment) : List SurveyAssignment :=
  existing ++ (planBulk users policy templateId month existing).created.map
    (fun pr => ⟨"", templateId, assignerId, pr.1.id, pr.2.id, month,
      AssignmentStatus.PENDING⟩)

/-! ## Concrete users, responses and assignments for the closed theorems -/

def adminUser : User := ⟨"a1", UserRole.ADMIN, none, none⟩

def playerOne : User := ⟨"p1", UserRole.PLAYER, none, none⟩

def playerTwo : User := ⟨"p2", UserRole.PLAYER, none, none⟩

def trainerOne : User := ⟨"tr1", UserRole.TRAINER, none, none⟩

def squadPlayer : User := ⟨"p3", UserRole.PLAYER, some ("tr1"), none⟩

def guardianOne : User := ⟨"g1", UserRole.GUARDIAN, none, some ("p1")⟩

def guardianTwo : User := ⟨"g2", UserRole.GUARDIAN, none, some ("p2")⟩

def guardianThree : User := ⟨"g3", UserRole.GUARDIAN, none, none⟩

/-- A response about `playerTwo` (January, full marks on `q1`). -/
def responseAboutPlayerTwo : SurveyResponse :=
  ⟨"r1", "t1", "g9", "p2", "2024-01", [("q1", 5)], 100⟩

/-- A second response about `playerTwo` in February. -/
def responseFebAboutPlayerTwo : SurveyResponse :=
  ⟨"r3", "t1", "g9", "p2", "2024-02", [("q1", 4)], 80⟩

/-- A response about `squadPlayer` (whose trainer is `trainerOne`). -/
def responseAboutSquadPlayer : SurveyResponse :=
  ⟨"r4", "t1", "g9", "p3", "2024-01", [("q1", 5)], 100⟩

/-- An assignment occupying the tuple ("t1", "g1", "p1", "2024-01"). -/
def existingAssignmentG1 : SurveyAssignment :=
  ⟨"as1", "t1", "adm", "g1", "p1", "2024-01", AssignmentStatus.PENDING⟩

/-- The visibility predicate of spec §4.3, as enforced by the `roleMatch`
branch of `playerResponsesPred`: ADMIN sees everything, a TRAINER sees
targets whose `trainerId` is the trainer's id, a GUARDIAN sees the target
equal to its `playerId`, a PLAYER sees itself. (The spec words the
TRAINER case as "a PLAYER with `trainerId == self.id`"; the code never
checks the target's role, so the role conjunct is dropped here — see the
C1 analysis.) -/
def roleVisibility (user target : User) : Prop :=
  match user.role with
  | UserRole.ADMIN => True
  | UserRole.TRAINER => target.trainerId = some user.id
  | UserRole.GUARDIAN => user.playerId = some target.id
  | UserRole.PLAYER => target.id = user.id

instance (user target : User) : Decidable (roleVisibility user target) := by
  unfold roleVisibility
  cases user.role <;> infer_instance

/-- The nonnegative-sums invariant on both radar accumulators. -/
def RadarSumsNonneg (acc : RadarAcc) : Prop :=
  (∀ e ∈ acc.ind, 0 ≤ e.2.1) ∧ (∀ e ∈ acc.sqd, 0 ≤ e.2.1)

/-! ## Claim theorems -/

/-- Claim C2: for the 60/40 single-category template on the 1-5 scale,
the scoring engine returns exactly 100 for the answers {q1:5, q2:5} and
exactly 44 for {q1:3, q2:1}. -/
theorem claim_C2_theorem :
    calculateWeightedScore scenario1Template [("q1", 5), ("q2", 5)] = 100 ∧
    calculateWeightedScore scenario1Template [("q1", 3), ("q2", 1)] = 44 := by
  constructor <;>
  · simp +decide only [calculateWeightedScore, weightedTotal, categoryRawScore,
      scenario1Template, alookup, jsOrDefault, jsRound, List.map_cons, List.map_nil,
      List.sum_cons, List.sum_nil]
    norm_num [Int.floor_eq_iff]

/-- Claim C3, counterexample: the claim says every score lies in [0,100],
but the engine consumes weights as provided; a category of weight 200
with one full-marks question yields 200. -/
theorem claim_C3_counterexample :
    calculateWeightedScore overweightTemplate [("q1", 5)] = 200 ∧
    ¬ calculateWeightedScore overweightTemplate [("q1", 5)] ≤ 100 := by
  have h : calculateWeightedScore overweightTemplate [("q1", 5)] = 200 := by
    simp +decide only [calculateWeightedScore, weightedTotal, categoryRawScore,
      overweightTemplate, alookup, jsOrDefault, jsRound, List.map_cons, List.map_nil,
      List.sum_cons, List.sum_nil]
    norm_num [Int.floor_eq_iff]
  exact ⟨h, by rw [h]; decide⟩

/-- Claim C5: the two duplicated scoring variants are not extensionally
equal — on the 60/40 template with answers {q1:5, q2:5} the heuristic
variant returns 100 and the fixed-denominator variant returns 50. -/
theorem claim_C5_theorem :
    ∃ (template : SurveyTemplate) (answers : List (String × ℚ)),
      calculateWeightedScore template answers ≠
        calculateWeightedScoreFixed10 template answers := by
  refine ⟨scenario1Template, [("q1", 5), ("q2", 5)], ?_⟩
  have h1 : calculateWeightedScore scenario1Template [("q1", 5), ("q2", 5)] = 100 := by
    simp +decide only [calculateWeightedScore, weightedTotal, categoryRawScore,
      scenario1Template, alookup, jsOrDefault, jsRound, List.map_cons, List.map_nil,
      List.sum_cons, List.sum_nil]
    norm_num [Int.floor_eq_iff]
  have h2 : calculateWeightedScoreFixed10 scenario1Template [("q1", 5), ("q2", 5)] = 50 := by
    simp +decide only [calculateWeightedScoreFixed10, scenario1Template, alookup,
      jsOrDefault, jsRound, List.map_cons, List.map_nil, List.sum_cons, List.sum_nil]
    norm_num [Int.floor_eq_iff]
  rw [h1, h2]
  decide

/-- Claim C10, counterexample: the claim says raising a positive-weight
RATING answer from 5 to 6 strictly decreases the computed score; on
`tinyWeightTemplate` (category weight 100 > 0, question weight 1 > 0)
both answers round to the same score 1, so the decrease is not strict. -/
theorem claim_C10_counterexample :
    calculateWeightedScore tinyWeightTemplate [("q1", 6)] =
      calculateWeightedScore tinyWeightTemplate [("q1", 5)] := by
  have h6 : calculateWeightedScore tinyWeightTemplate [("q1", 6)] = 1 := by
    simp +decide only [calculateWeightedScore, weightedTotal, categoryRawScore,
      tinyWeightTemplate, alookup, jsOrDefault, jsRound, List.map_cons, List.map_nil,
      List.sum_cons, List.sum_nil]
    norm_num [Int.floor_eq_iff]
  have h5 : calculateWeightedScore tinyWeightTemplate [("q1", 5)] = 1 := by
    simp +decide only [calculateWeightedScore, weightedTotal, categoryRawScore,
      tinyWeightTemplate, alookup, jsOrDefault, jsRound, List.map_cons, List.map_nil,
      List.sum_cons, List.sum_nil]
    norm_num [Int.floor_eq_iff]
  rw [h5, h6]

/-- Claim C4: for every template, the empty answer map scores 0 (an
absent answer is treated as the raw value 0). -/
theorem claim_C4_theorem (template : SurveyTemplate) :
    calculateWeightedScore template [] = 0 := by
  have hcat : ∀ c : Category, categoryRawScore [] c = 0 := by
    intro c
    unfold categoryRawScore
    apply List.sum_eq_zero
    intro x hx
    obtain ⟨q, hq, rfl⟩ := List.mem_map.mp hx
    simp [alookup, jsOrDefault]
  have htot : weightedTotal template [] = 0 := by
    unfold weightedTotal
    apply List.sum_eq_zero
    intro x hx
    obtain ⟨c, hc, rfl⟩ := List.mem_map.mp hx
    rw [hcat c]
    ring
  unfold calculateWeightedScore
  rw [htot]
  norm_num [jsRound]

/-- Claim C6: with the category filter `["c1"]` active, the trend metric
for a single response answering q1 with the raw value 5 is 5 — the mean
of the **raw** answers — whereas the claimed normalized (0-100) metric
would be `qNormalized100 5 = 100`. -/
theorem claim_C6_theorem :
    trendByMonthData [responseAboutPlayerTwo] [scenario1Template] [] [] [] ["c1"] [] =
      [("2024-01", 5)] ∧ qNormalized100 5 = 100 := by
  constructor
  · simp +decide [trendByMonthData, filteredData, responseMetricValue, selectedRawAnswers,
      findTemplate, bumpEntry, sortByKey, insertSortedByKey, alookup, jsRound,
      responseAboutPlayerTwo, scenario1Template]
    norm_num [Int.floor_eq_iff]
  · norm_num [qNormalized100]

/-- Claim C7, counterexample: the month filter is empty (it contains
fewer than two distinct months), yet the growth indicator returns a
result; moreover for January average 100 and February average 80 the
claimed signed `round(current - previous) = -20` is reported as the
absolute value 20 with the direction flag `false`. -/
theorem claim_C7_counterexample :
    trendComparison adminUser [adminUser, playerTwo]
      [responseAboutPlayerTwo, responseFebAboutPlayerTwo] [] [] [] =
      some (20, false) := by
  simp +decide [trendComparison, trendData, trendGroups, playerResponses,
    playerResponsesPred, findUser, bumpEntry, sortByKey, insertSortedByKey, lastTwo,
    jsRound, adminUser, playerTwo, responseAboutPlayerTwo, responseFebAboutPlayerTwo]

/-- Claim C1, counterexample: `playerTwo` is outside the PLAYER caller
`playerOne`'s visibility scope, yet with all filters deselected the
caller's radar output is built entirely from the response about
`playerTwo` — both the selection average A and the benchmark average B
report it (removing that out-of-scope response empties the output). -/
theorem claim_C1_counterexample :
    ¬ roleVisibility playerOne playerTwo ∧
    radarData playerOne [playerOne, playerTwo] [responseAboutPlayerTwo]
      [scenario1Template] none [] [] [] = [⟨"Technique", 100, 100⟩] ∧
    radarData playerOne [playerOne, playerTwo] [] [scenario1Template] none [] [] [] = [] := by
  refine ⟨by decide, ?_, by rfl⟩
  simp +decide [radarData, radarEntries, radarAcc, radarResStep, radarCatStep, catScore,
    qNormalized100, insertOnce, bumpEntry, findUser, findTemplate, alookup, averageOf,
    jsRound, playerOne, playerTwo, responseAboutPlayerTwo, scenario1Template]
  norm_num [Int.floor_eq_iff]

/-- A successful `alookup` returns a stored binding. -/
theorem alookup_eq_some_mem {α : Type} (l : List (String × α)) (k : String) (v : α)
    (h : alookup l k = some v) : (k, v) ∈ l := by
  induction l with
  | nil => simp [alookup] at h
  | cons e rest ih =>
    obtain ⟨k', v'⟩ := e
    by_cases hk : k = k'
    · subst hk
      simp [alookup] at h
      simp [h]
    · simp [alookup, hk] at h
      exact List.mem_cons_of_mem _ (ih h)

/-- The value the scoring engine uses for a question lies in [0, 10]
whenever every stored answer does. -/
theorem score_value_bounds (answers : List (String × ℚ)) (k : String)
    (hans : ∀ p ∈ answers, 0 ≤ p.2 ∧ p.2 ≤ 10) :
    0 ≤ jsOrDefault (alookup answers k) 0 ∧ jsOrDefault (alookup answers k) 0 ≤ 10 := by
  cases hl : alookup answers k with
  | none => simp [jsOrDefault]
  | some v =>
    have hv := hans _ (alookup_eq_some_mem _ _ _ hl)
    by_cases h0 : v = 0
    · simp [jsOrDefault, h0]
    · simpa [jsOrDefault, h0] using hv

/-- The heuristic normalization `s / (s > 5 ? 10 : 5)` maps [0, 10] into
[0, 1]. -/
theorem normalizedFrac_bounds (s : ℚ) (h0 : 0 ≤ s) (h10 : s ≤ 10) :
    0 ≤ s / (if 5 < s then 10 else 5) ∧ s / (if 5 < s then 10 else 5) ≤ 1 := by
  split_ifs with h5
  · exact ⟨div_nonneg h0 (by norm_num), (div_le_one (by norm_num)).mpr h10⟩
  · push_neg at h5
    exact ⟨div_nonneg h0 (by norm_num), (div_le_one (by norm_num)).mpr (by linarith)⟩

/-- Lower bound for a category's raw score. -/
theorem categoryRawScore_nonneg (answers : List (String × ℚ)) (c : Category)
    (hqw : ∀ q ∈ c.questions, 0 ≤ q.weight)
    (hans : ∀ p ∈ answers, 0 ≤ p.2 ∧ p.2 ≤ 10) :
    0 ≤ categoryRawScore answers c := by
  unfold categoryRawScore
  apply List.sum_nonneg
  intro x hx
  obtain ⟨q, hq, rfl⟩ := List.mem_map.mp hx
  have hs := score_value_bounds answers q.id hans
  have hn := normalizedFrac_bounds _ hs.1 hs.2
  exact mul_nonneg hn.1 (hqw q hq)

/-- Upper bound: a category's raw score is at most the sum of its
question weights. -/
theorem categoryRawScore_le (answers : List (String × ℚ)) (c : Category)
    (hqw : ∀ q ∈ c.questions, 0 ≤ q.weight)
    (hans : ∀ p ∈ answers, 0 ≤ p.2 ∧ p.2 ≤ 10) :
    categoryRawScore answers c ≤ (c.questions.map (fun q => q.weight)).sum := by
  unfold categoryRawScore
  apply List.sum_le_sum
  intro q hq
  have hs := score_value_bounds answers q.id hans
  have hn := normalizedFrac_bounds _ hs.1 hs.2
  exact mul_le_of_le_one_left (hqw q hq) hn.2

/-- `jsRound` maps [0, 100] into the integers 0..100. -/
theorem jsRound_bounds (x : ℚ) (h0 : 0 ≤ x) (h1 : x ≤ 100) :
    0 ≤ jsRound x ∧ jsRound x ≤ 100 := by
  unfold jsRound
  constructor
  · exact Int.le_floor.mpr (by push_cast; linarith)
  · calc ⌊x + 1/2⌋ ≤ ⌊(201/2 : ℚ)⌋ := Int.floor_le_floor (by linarith)
    _ = 100 := by norm_num [Int.floor_eq_iff]

/-- Claim C3, amended: the score is an integer in [0, 100] for every
template whose category weights are nonnegative and sum to at most 100,
whose per-category question weights are nonnegative and sum to at most
100, and every answer value lies in [0, 10]; without these template/answer
invariants the score can leave the interval (see the counterexample). -/
theorem claim_C3_theorem (template : SurveyTemplate) (answers : List (String × ℚ))
    (hcw : ∀ c ∈ template.categories, 0 ≤ c.weight)
    (hcsum : (template.categories.map (fun c => c.weight)).sum ≤ 100)
    (hqw : ∀ c ∈ template.categories, ∀ q ∈ c.questions, 0 ≤ q.weight)
    (hqsum : ∀ c ∈ template.categories, (c.questions.map (fun q => q.weight)).sum ≤ 100)
    (hans : ∀ p ∈ answers, 0 ≤ p.2 ∧ p.2 ≤ 10) :
    0 ≤ calculateWeightedScore template answers ∧
      calculateWeightedScore template answers ≤ 100 := by
  have htot0 : 0 ≤ weightedTotal template answers := by
    unfold weightedTotal
    apply List.sum_nonneg
    intro x hx
    obtain ⟨c, hc, rfl⟩ := List.mem_map.mp hx
    have h1 := categoryRawScore_nonneg answers c (hqw c hc) hans
    exact div_nonneg (mul_nonneg h1 (hcw c hc)) (by norm_num)
  have htot1 : weightedTotal template answers ≤ 100 := by
    unfold weightedTotal
    calc (template.categories.map (fun c =>
            categoryRawScore answers c * c.weight / 100)).sum
        ≤ (template.categories.map (fun c => c.weight)).sum := by
          apply List.sum_le_sum
          intro c hc
          have hle : categoryRawScore answers c ≤ 100 :=
            (categoryRawScore_le answers c (hqw c hc) hans).trans (hqsum c hc)
          have h0 := categoryRawScore_nonneg answers c (hqw c hc) hans
          have hcwc := hcw c hc
          rw [div_le_iff₀ (by norm_num : (0:ℚ) < 100)]
          calc categoryRawScore answers c * c.weight ≤ 100 * c.weight := by
                exact mul_le_mul_of_nonneg_right hle hcwc
          _ = c.weight * 100 := by ring
      _ ≤ 100 := hcsum
  exact jsRound_bounds _ htot0 htot1

/-- Witness for C3 (amended): the 60/40 template with answers
{q1:5, q2:3} satisfies every hypothesis and scores inside [0, 100]. -/
theorem claim_C3_witness :
    0 ≤ calculateWeightedScore scenario1Template [("q1", 5), ("q2", 3)] ∧
      calculateWeightedScore scenario1Template [("q1", 5), ("q2", 3)] ≤ 100 :=
  claim_C3_theorem scenario1Template [("q1", 5), ("q2", 3)]
    (by norm_num [scenario1Template])
    (by norm_num [scenario1Template])
    (by norm_num [scenario1Template])
    (by norm_num [scenario1Template])
    (by norm_num)

/-- One question's summand in `categoryRawScore`, abbreviated for the
monotonicity lemmas below. -/
theorem scoreTerm_six_le_five (rest : List (String × ℚ)) (qid : String)
    (q : Question) (hw : 0 ≤ q.weight) :
    jsOrDefault (alookup ((qid, 6) :: rest) q.id) 0 /
        (if 5 < jsOrDefault (alookup ((qid, 6) :: rest) q.id) 0 then 10 else 5) * q.weight ≤
      jsOrDefault (alookup ((qid, 5) :: rest) q.id) 0 /
        (if 5 < jsOrDefault (alookup ((qid, 5) :: rest) q.id) 0 then 10 else 5) * q.weight := by
  by_cases h : q.id = qid
  · simp only [alookup, h, if_pos rfl, jsOrDefault]
    norm_num
    linarith
  · simp [alookup, h]

/-- Strict version of `scoreTerm_six_le_five` at the changed question. -/
theorem scoreTerm_six_lt_five (rest : List (String × ℚ)) (qid : String)
    (q : Question) (hw : 0 < q.weight) (h : q.id = qid) :
    jsOrDefault (alookup ((qid, 6) :: rest) q.id) 0 /
        (if 5 < jsOrDefault (alookup ((qid, 6) :: rest) q.id) 0 then 10 else 5) * q.weight <
      jsOrDefault (alookup ((qid, 5) :: rest) q.id) 0 /
        (if 5 < jsOrDefault (alookup ((qid, 5) :: rest) q.id) 0 then 10 else 5) * q.weight := by
  simp only [alookup, h, if_pos rfl, jsOrDefault]
  norm_num
  linarith

/-- Raising the answer of `qid` from 5 to 6 cannot increase a category's
raw score (nonnegative question weights). -/
theorem categoryRawScore_six_le_five (rest : List (String × ℚ)) (qid : String)
    (c : Category) (hqw : ∀ q ∈ c.questions, 0 ≤ q.weight) :
    categoryRawScore ((qid, 6) :: rest) c ≤ categoryRawScore ((qid, 5) :: rest) c := by
  unfold categoryRawScore
  apply List.sum_le_sum
  intro q hq
  exact scoreTerm_six_le_five rest qid q (hqw q hq)

/-- Raising the answer of `qid` from 5 to 6 strictly decreases the raw
score of a category containing a positive-weight question with that
id. -/
theorem categoryRawScore_six_lt_five (rest : List (String × ℚ)) (qid : String)
    (c : Category) (hqw : ∀ q ∈ c.questions, 0 ≤ q.weight)
    (hocc : ∃ q ∈ c.questions, q.id = qid ∧ 0 < q.weight) :
    categoryRawScore ((qid, 6) :: rest) c < categoryRawScore ((qid, 5) :: rest) c := by
  unfold categoryRawScore
  obtain ⟨q0, hq0, hid, hw⟩ := hocc
  apply List.sum_lt_sum
  · intro q hq
    exact scoreTerm_six_le_five rest qid q (hqw q hq)
  · exact ⟨q0, hq0, scoreTerm_six_lt_five rest qid q0 hw hid⟩

/-- Claim C10, amended: raising a positive-weight RATING question's raw
answer from 5 to 6 strictly decreases the **pre-rounding** weighted total
(the heuristic normalizes 5 as 5/5 = 1 but 6 as 6/10 = 0.6), and the
rounded score therefore never increases; the rounded score itself need
not strictly decrease (see the counterexample). -/
theorem claim_C10_theorem (template : SurveyTemplate) (qid : String)
    (rest : List (String × ℚ))
    (hcw : ∀ c ∈ template.categories, 0 ≤ c.weight)
    (hqw : ∀ c ∈ template.categories, ∀ q ∈ c.questions, 0 ≤ q.weight)
    (hocc : ∃ c ∈ template.categories, 0 < c.weight ∧
      ∃ q ∈ c.questions, q.id = qid ∧ 0 < q.weight) :
    weightedTotal template ((qid, 6) :: rest) <
        weightedTotal template ((qid, 5) :: rest) ∧
      calculateWeightedScore template ((qid, 6) :: rest) ≤
        calculateWeightedScore template ((qid, 5) :: rest) := by
  have htot : weightedTotal template ((qid, 6) :: rest) <
      weightedTotal template ((qid, 5) :: rest) := by
    unfold weightedTotal
    obtain ⟨c0, hc0, hcw0, hq0⟩ := hocc
    apply List.sum_lt_sum
    · intro c hc
      have hle := categoryRawScore_six_le_five rest qid c (hqw c hc)
      have hp := mul_le_mul_of_nonneg_right hle (hcw c hc)
      linarith
    · refine ⟨c0, hc0, ?_⟩
      have hlt := categoryRawScore_six_lt_five rest qid c0 (hqw c0 hc0) hq0
      have hp := mul_lt_mul_of_pos_right hlt hcw0
      linarith
  refine ⟨htot, ?_⟩
  unfold calculateWeightedScore jsRound
  exact Int.floor_le_floor (by linarith)

/-- Witness for C10 (amended): on the 60/40 template, raising q1 from 5
to 6 strictly drops the pre-rounding total and does not raise the
score. -/
theorem claim_C10_witness :
    weightedTotal scenario1Template [("q1", 6)] <
        weightedTotal scenario1Template [("q1", 5)] ∧
      calculateWeightedScore scenario1Template [("q1", 6)] ≤
        calculateWeightedScore scenario1Template [("q1", 5)] :=
  claim_C10_theorem scenario1Template ("q1") []
    (by norm_num [scenario1Template])
    (by norm_num [scenario1Template])
    (by simp +decide [scenario1Template])

/-- Claim C1, amended: every Response passing the visibility-scoped
filter `playerResponses` (from which the per-selection trend, comparison
and summary outputs are derived) has a resolvable target user satisfying
the caller's visibility predicate — for a TRAINER the target's
`trainerId` equals the trainer's id (the target's own role is not
checked), for a GUARDIAN the target is the linked `playerId`, for a
PLAYER the target is the caller. The containment does **not** extend to
every derived output: the radar benchmark series and, for PLAYER and
GUARDIAN callers, even the selection series aggregate out-of-scope
Responses (see the counterexample). -/
theorem claim_C1_theorem (user : User) (users : List User)
    (responses : List SurveyResponse)
    (selTrainers selPlayers selMonths : List String) (r : SurveyResponse)
    (hr : r ∈ playerResponses user users responses selTrainers selPlayers selMonths) :
    ∃ target : User, findUser users r.targetPlayerId = some target ∧
      roleVisibility user target := by
  have h := (List.mem_filter.mp hr).2
  unfold playerResponsesPred at h
  cases hfind : findUser users r.targetPlayerId with
  | none => rw [hfind] at h; simp at h
  | some target =>
    rw [hfind] at h
    refine ⟨target, rfl, ?_⟩
    simp only [Bool.and_eq_true] at h
    obtain ⟨⟨⟨_, _⟩, _⟩, hrole⟩ := h
    unfold roleVisibility
    cases hurole : user.role <;> rw [hurole] at hrole <;> simp_all

/-- Witness for C1 (amended): a TRAINER caller and a response about a
player of their own squad. -/
theorem claim_C1_witness :
    ∃ target : User,
      findUser [trainerOne, squadPlayer] responseAboutSquadPlayer.targetPlayerId =
        some target ∧ roleVisibility trainerOne target :=
  claim_C1_theorem trainerOne [trainerOne, squadPlayer] [responseAboutSquadPlayer]
    [] [] [] responseAboutSquadPlayer
    (by simp +decide [playerResponses, playerResponsesPred, findUser, trainerOne,
      squadPlayer, responseAboutSquadPlayer])

/-- `lastTwo` fails exactly on lists of fewer than two elements. -/
theorem lastTwo_eq_none_iff {α : Type} : ∀ l : List α, lastTwo l = none ↔ l.length < 2
  | [] => by simp [lastTwo]
  | [_] => by simp [lastTwo]
  | [_, _] => by simp [lastTwo]
  | a :: b :: c :: rest => by
    rw [show lastTwo (a :: b :: c :: rest) = lastTwo (b :: c :: rest) from rfl,
      lastTwo_eq_none_iff (b :: c :: rest)]
    simp
    omega

/-- `bumpEntry` adds `k` to the key set and keeps the other keys. -/
theorem mem_keys_bumpEntry (m : List (String × ℚ × ℕ)) (k : String) (v : ℚ)
    (k' : String) :
    k' ∈ (bumpEntry m k v).map Prod.fst ↔ k' ∈ m.map Prod.fst ∨ k' = k := by
  induction m with
  | nil => simp [bumpEntry]
  | cons e rest ih =>
    by_cases h : e.1 = k
    · rw [show bumpEntry (e :: rest) k v = (e.1, e.2.1 + v, e.2.2 + 1) :: rest by
        simp [bumpEntry, h]]
      subst h
      simp only [List.map_cons, List.mem_cons]
      tauto
    · rw [show bumpEntry (e :: rest) k v = e :: bumpEntry rest k v by
        simp [bumpEntry, h]]
      simp only [List.map_cons, List.mem_cons]
      rw [ih]
      tauto

/-- `bumpEntry` preserves distinctness of the keys. -/
theorem nodup_keys_bumpEntry (m : List (String × ℚ × ℕ)) (k : String) (v : ℚ)
    (h : (m.map Prod.fst).Nodup) : ((bumpEntry m k v).map Prod.fst).Nodup := by
  induction m with
  | nil => simp [bumpEntry]
  | cons e rest ih =>
    rw [List.map_cons, List.nodup_cons] at h
    by_cases hek : e.1 = k
    · simpa [bumpEntry, hek, List.nodup_cons] using h
    · rw [show bumpEntry (e :: rest) k v = e :: bumpEntry rest k v by
        simp [bumpEntry, hek], List.map_cons, List.nodup_cons]
      refine ⟨?_, ih h.2⟩
      rw [mem_keys_bumpEntry]
      rintro (hc | hc)
      · exact h.1 hc
      · exact hek hc

/-- Keys accumulated by the month-grouping fold: the initial keys plus
every month occurring in the responses. -/
theorem mem_keys_monthFold (rs : List SurveyResponse) :
    ∀ (m0 : List (String × ℚ × ℕ)) (k : String),
      (k ∈ (rs.foldl (fun m r => bumpEntry m r.month r.weightedScore) m0).map Prod.fst ↔
        k ∈ m0.map Prod.fst ∨ k ∈ rs.map (fun r => r.month)) := by
  induction rs with
  | nil => simp
  | cons r rest ih =>
    intro m0 k
    simp only [List.foldl_cons, List.map_cons, List.mem_cons]
    rw [ih, mem_keys_bumpEntry]
    tauto

/-- The month-grouping fold keeps the keys distinct. -/
theorem nodup_keys_monthFold (rs : List SurveyResponse) :
    ∀ m0 : List (String × ℚ × ℕ), (m0.map Prod.fst).Nodup →
      ((rs.foldl (fun m r => bumpEntry m r.month r.weightedScore) m0).map Prod.fst).Nodup := by
  induction rs with
  | nil => intro m0 h; simpa using h
  | cons r rest ih =>
    intro m0 h
    simp only [List.foldl_cons]
    exact ih _ (nodup_keys_bumpEntry m0 r.month r.weightedScore h)

/-- One group per distinct month. -/
theorem length_trendGroups (rs : List SurveyResponse) :
    (trendGroups rs).length = (rs.map (fun r => r.month)).dedup.length := by
  have hnd : ((trendGroups rs).map Prod.fst).Nodup :=
    nodup_keys_monthFold rs [] (by simp)
  have hmem : ∀ k, k ∈ (trendGroups rs).map Prod.fst ↔
      k ∈ (rs.map (fun r => r.month)).dedup := by
    intro k
    unfold trendGroups
    rw [mem_keys_monthFold rs [] k, List.mem_dedup]
    simp
  have h1 : ((trendGroups rs).map Prod.fst).toFinset =
      (rs.map (fun r => r.month)).dedup.toFinset := by
    ext k
    simp only [List.mem_toFinset]
    exact hmem k
  calc (trendGroups rs).length
      = ((trendGroups rs).map Prod.fst).length := (List.length_map _ _).symm
    _ = ((trendGroups rs).map Prod.fst).toFinset.card :=
        (List.toFinset_card_of_nodup hnd).symm
    _ = (rs.map (fun r => r.month)).dedup.toFinset.card := by rw [h1]
    _ = (rs.map (fun r => r.month)).dedup.length :=
        List.toFinset_card_of_nodup (List.nodup_dedup _)

/-- Inserting one element grows the length by one. -/
theorem length_insertSortedByKey (x : String × ℤ) (l : List (String × ℤ)) :
    (insertSortedByKey x l).length = l.length + 1 := by
  induction l with
  | nil => rfl
  | cons y ys ih => by_cases h : x.1 ≤ y.1 <;> simp [insertSortedByKey, h, ih]

/-- Sorting preserves the length. -/
theorem length_sortByKey (l : List (String × ℤ)) :
    (sortByKey l).length = l.length := by
  induction l with
  | nil => rfl
  | cons x xs ih =>
    unfold sortByKey at ih ⊢
    rw [List.foldr_cons, length_insertSortedByKey, ih]
    simp

/-- Claim C7, amended: the growth indicator returns `none` exactly when
fewer than two **distinct months carry qualifying responses** — the
month-filter cardinality is irrelevant (see the counterexample); when it
returns a value, that value is the absolute difference of the rounded
mean `weightedScore`s of the two chronologically latest months with
data, with a direction flag, one overall metric rather than one per
category. -/
theorem claim_C7_theorem (user : User) (users : List User)
    (responses : List SurveyResponse)
    (selTrainers selPlayers selMonths : List String) :
    (trendComparison user users responses selTrainers selPlayers selMonths = none ↔
      ((playerResponses user users responses selTrainers selPlayers selMonths).map
        (fun r => r.month)).dedup.length < 2) := by
  have hlen : (trendData user users responses selTrainers selPlayers selMonths).length =
      ((playerResponses user users responses selTrainers selPlayers selMonths).map
        (fun r => r.month)).dedup.length := by
    unfold trendData
    rw [length_sortByKey, List.length_map, length_trendGroups]
  have h1 : trendComparison user users responses selTrainers selPlayers selMonths = none ↔
      lastTwo (trendData user users responses selTrainers selPlayers selMonths) = none := by
    unfold trendComparison
    cases lastTwo (trendData user users responses selTrainers selPlayers selMonths) with
    | none => simp
    | some p =>
      obtain ⟨l, c⟩ := p
      simp
  rw [h1, lastTwo_eq_none_iff, hlen]

/-- `jsRound` of a nonnegative number is nonnegative. -/
theorem jsRound_nonneg (x : ℚ) (h : 0 ≤ x) : 0 ≤ jsRound x := by
  unfold jsRound
  exact Int.le_floor.mpr (by push_cast; linarith)

/-- The 0-100 normalization of a nonnegative answer is nonnegative. -/
theorem qNormalized100_nonneg (a : ℚ) (h : 0 ≤ a) : 0 ≤ qNormalized100 a := by
  unfold qNormalized100
  split_ifs
  · exact mul_nonneg (div_nonneg h (by norm_num)) (by norm_num)
  · exact mul_nonneg (div_nonneg h (by norm_num)) (by norm_num)

/-- A category average computed by `catScore` from nonnegative answers
is nonnegative. -/
theorem catScore_nonneg (answers : List (String × ℚ)) (cat : Category)
    (hans : ∀ p ∈ answers, 0 ≤ p.2) (v : ℚ)
    (h : catScore answers cat = some v) : 0 ≤ v := by
  simp only [catScore] at h
  split_ifs at h with he
  replace h := Option.some_inj.mp h
  subst h
  apply div_nonneg _ (by positivity)
  apply List.sum_nonneg
  intro x hx
  obtain ⟨q, hq, hqx⟩ := List.mem_filterMap.mp hx
  obtain ⟨w, hw, rfl⟩ := Option.map_eq_some'.mp hqx
  exact qNormalized100_nonneg w (hans _ (alookup_eq_some_mem _ _ _ hw))

/-- `bumpEntry` keeps all accumulated sums nonnegative when the added
sample is nonnegative. -/
theorem sumsNonneg_bumpEntry (l : List (String × ℚ × ℕ)) (k : String) (v : ℚ)
    (hl : ∀ e ∈ l, 0 ≤ e.2.1) (hv : 0 ≤ v) :
    ∀ e ∈ bumpEntry l k v, 0 ≤ e.2.1 := by
  induction l with
  | nil =>
    intro e he
    simp [bumpEntry] at he
    simp [he, hv]
  | cons f rest ih =>
    intro e he
    by_cases h : f.1 = k
    · rw [show bumpEntry (f :: rest) k v = (f.1, f.2.1 + v, f.2.2 + 1) :: rest by
        simp [bumpEntry, h]] at he
      rcases List.mem_cons.mp he with h1 | h1
      · subst h1
        have := hl f (List.mem_cons_self f rest)
        simpa using add_nonneg this hv
      · exact hl e (List.mem_cons_of_mem f h1)
    · rw [show bumpEntry (f :: rest) k v = f :: bumpEntry rest k v by
        simp [bumpEntry, h]] at he
      rcases List.mem_cons.mp he with h1 | h1
      · rw [h1]
        exact hl f (List.mem_cons_self f rest)
      · exact ih (fun x hx => hl x (List.mem_cons_of_mem f hx)) e h1

/-- A fold preserves any invariant preserved by its step function. -/
theorem foldl_preserves_mem {α β : Type} (P : β → Prop) (f : β → α → β)
    (l : List α) :
    ∀ b : β, P b → (∀ b a, a ∈ l → P b → P (f b a)) → P (l.foldl f b) := by
  induction l with
  | nil =>
    intro b hb _
    simpa using hb
  | cons a l ih =>
    intro b hb hstep
    simp only [List.foldl_cons]
    exact ih (f b a) (hstep b a (List.mem_cons_self a l) hb)
      (fun b' a' ha' hb' => hstep b' a' (List.mem_cons_of_mem a ha') hb')

/-- `radarCatStep` preserves the nonnegative-sums invariant when the
response's answers are nonnegative. -/
theorem radarCatStep_inv (user : User) (users : List User)
    (selTrainers selPlayers : List String) (res : SurveyResponse)
    (hans : ∀ p ∈ res.answers, 0 ≤ p.2) (acc : RadarAcc) (cat : Category)
    (hacc : RadarSumsNonneg acc) :
    RadarSumsNonneg (radarCatStep user users selTrainers selPlayers res acc cat) := by
  obtain ⟨hind, hsqd⟩ := hacc
  unfold radarCatStep
  cases hcs : catScore res.answers cat with
  | none => exact ⟨hind, hsqd⟩
  | some fs =>
    have hfs : 0 ≤ fs := catScore_nonneg _ _ hans fs hcs
    cases hfind : findUser users res.targetPlayerId with
    | none => exact ⟨hind, hsqd⟩
    | some target =>
      refine ⟨?_, ?_⟩ <;> simp only
      · split
        · exact sumsNonneg_bumpEntry _ _ _ hind hfs
        · exact hind
      · split
        · exact sumsNonneg_bumpEntry _ _ _ hsqd hfs
        · exact hsqd

/-- `radarResStep` preserves the nonnegative-sums invariant. -/
theorem radarResStep_inv (user : User) (users : List User)
    (templates : List SurveyTemplate) (selTemplateId : Option String)
    (selMonths selTrainers selPlayers : List String)
    (acc : RadarAcc) (res : SurveyResponse)
    (hans : ∀ p ∈ res.answers, 0 ≤ p.2) (hacc : RadarSumsNonneg acc) :
    RadarSumsNonneg (radarResStep user users templates selTemplateId
      selMonths selTrainers selPlayers acc res) := by
  unfold radarResStep
  split
  · exact hacc
  · split
    · exact hacc
    · split
      · exact hacc
      · exact foldl_preserves_mem RadarSumsNonneg _ _ acc hacc
          (fun b cat _ hb => radarCatStep_inv user users selTrainers selPlayers
            res hans b cat hb)

/-- The fully accumulated radar state has nonnegative sums whenever all
answers in all responses are nonnegative. -/
theorem radarAcc_inv (user : User) (users : List User)
    (responses : List SurveyResponse) (templates : List SurveyTemplate)
    (selTemplateId : Option String)
    (selMonths selTrainers selPlayers : List String)
    (hnn : ∀ r ∈ responses, ∀ p ∈ r.answers, 0 ≤ p.2) :
    RadarSumsNonneg (radarAcc user users responses templates selTemplateId
      selMonths selTrainers selPlayers) := by
  unfold radarAcc
  exact foldl_preserves_mem RadarSumsNonneg _ _ _
    ⟨by simp, by simp⟩
    (fun b res hres hb => radarResStep_inv user users templates selTemplateId
      selMonths selTrainers selPlayers b res (hnn res hres) hb)

/-- Both coordinates of every radar point are nonnegative whenever all
answers are nonnegative. -/
theorem radarEntries_nonneg (user : User) (users : List User)
    (responses : List SurveyResponse) (templates : List SurveyTemplate)
    (selTemplateId : Option String)
    (selMonths selTrainers selPlayers : List String)
    (hnn : ∀ r ∈ responses, ∀ p ∈ r.answers, 0 ≤ p.2) :
    ∀ e ∈ radarEntries user users responses templates selTemplateId
      selMonths selTrainers selPlayers, 0 ≤ e.A ∧ 0 ≤ e.B := by
  intro e he
  have hinv := radarAcc_inv user users responses templates selTemplateId
    selMonths selTrainers selPlayers hnn
  unfold radarEntries at he
  obtain ⟨catName, hcat, rfl⟩ := List.mem_map.mp he
  constructor <;> simp only
  · cases hl : alookup (radarAcc user users responses templates selTemplateId
        selMonths selTrainers selPlayers).ind catName with
    | none => simp [averageOf, hl]
    | some sc =>
      obtain ⟨s, c⟩ := sc
      have hs := hinv.1 _ (alookup_eq_some_mem _ _ _ hl)
      simp only [averageOf, hl]
      exact jsRound_nonneg _ (div_nonneg hs (by positivity))
  · cases hl : alookup (radarAcc user users responses templates selTemplateId
        selMonths selTrainers selPlayers).sqd catName with
    | none => simp [averageOf, hl]
    | some sc =>
      obtain ⟨s, c⟩ := sc
      have hs := hinv.2 _ (alookup_eq_some_mem _ _ _ hl)
      simp only [averageOf, hl]
      exact jsRound_nonneg _ (div_nonneg hs (by positivity))

/-- Claim C8: a category is omitted from the radar result iff both its
selection average A and its benchmark average B are zero (under the
data invariant that raw answers are nonnegative, which makes both
averages nonnegative so that the code's `A > 0 || B > 0` keep-filter
coincides with "not both zero"). -/
theorem claim_C8_theorem (user : User) (users : List User)
    (responses : List SurveyResponse) (templates : List SurveyTemplate)
    (selTemplateId : Option String)
    (selMonths selTrainers selPlayers : List String)
    (hnn : ∀ r ∈ responses, ∀ p ∈ r.answers, 0 ≤ p.2) :
    ∀ e ∈ radarEntries user users responses templates selTemplateId
      selMonths selTrainers selPlayers,
      (e ∈ radarData user users responses templates selTemplateId
        selMonths selTrainers selPlayers ↔ ¬(e.A = 0 ∧ e.B = 0)) := by
  intro e he
  have hAB := radarEntries_nonneg user users responses templates selTemplateId
    selMonths selTrainers selPlayers hnn e he
  unfold radarData
  rw [List.mem_filter]
  simp only [he, true_and, Bool.or_eq_true, decide_eq_true_eq]
  omega

/-- Witness for C8: with a selection matching no player (A = 0) and a
nonzero squad benchmark (B = 100), the category is kept. -/
theorem claim_C8_witness :
    (⟨"Technique", 0, 100⟩ : RadarPoint) ∈ radarData trainerOne
      [trainerOne, squadPlayer] [responseAboutSquadPlayer] [scenario1Template]
      none [] [] ["p9"] := by
  have hmem : (⟨"Technique", 0, 100⟩ : RadarPoint) ∈ radarEntries trainerOne
      [trainerOne, squadPlayer] [responseAboutSquadPlayer] [scenario1Template]
      none [] [] ["p9"] := by
    have hev : radarEntries trainerOne [trainerOne, squadPlayer]
        [responseAboutSquadPlayer] [scenario1Template] none [] [] ["p9"] =
        [⟨"Technique", 0, 100⟩] := by
      simp +decide [radarEntries, radarAcc, radarResStep, radarCatStep, catScore,
        qNormalized100, insertOnce, bumpEntry, findUser, findTemplate, alookup,
        averageOf, jsRound, trainerOne, squadPlayer, responseAboutSquadPlayer,
        scenario1Template]
      norm_num [Int.floor_eq_iff]
    rw [hev]
    simp
  exact (claim_C8_theorem trainerOne [trainerOne, squadPlayer]
    [responseAboutSquadPlayer] [scenario1Template] none [] [] ["p9"]
    (by norm_num [responseAboutSquadPlayer]) _ hmem).mpr (by decide)

/-- `assignmentExists` depends on a candidate pair only through the two
ids. -/
theorem assignmentExists_congr (existing : List SurveyAssignment)
    (templateId month : String) (pr pr' : User × User)
    (h1 : pr.1.id = pr'.1.id) (h2 : pr.2.id = pr'.2.id) :
    assignmentExists existing templateId month pr =
      assignmentExists existing templateId month pr' := by
  unfold assignmentExists
  simp only [h1, h2]

/-- Claim C9 (engine modelled from spec §4.2): a candidate pair is
classified `alreadyExists` iff an Assignment already occupies the exact
tuple (templateId, respondent.id, target.id, month) in the preview
snapshot, `created` is the complementary partition of the candidates,
execution persists only new PENDING Assignments, and for every
`alreadyExists` pair the set of Assignments matching its tuple is left
exactly as it was — nothing is duplicated or overwritten. -/
theorem claim_C9_theorem (users : List User) (policy : BulkPolicy)
    (templateId month assignerId : String) (existing : List SurveyAssignment) :
    (∀ pr : User × User,
      pr ∈ (planBulk users policy templateId month existing).alreadyExists ↔
        pr ∈ candidatePairs users policy ∧
          assignmentExists existing templateId month pr = true) ∧
    (∀ pr : User × User,
      pr ∈ (planBulk users policy templateId month existing).created ↔
        pr ∈ candidatePairs users policy ∧
          assignmentExists existing templateId month pr = false) ∧
    (∀ a ∈ executeBulk users policy templateId month assignerId existing,
      a ∉ existing → a.status = AssignmentStatus.PENDING) ∧
    (∀ pr ∈ (planBulk users policy templateId month existing).alreadyExists,
      (executeBulk users policy templateId month assignerId existing).filter
          (fun a => decide (a.templateId = templateId ∧ a.respondentId = pr.1.id ∧
            a.targetId = pr.2.id ∧ a.month = month)) =
        existing.filter
          (fun a => decide (a.templateId = templateId ∧ a.respondentId = pr.1.id ∧
            a.targetId = pr.2.id ∧ a.month = month))) := by
  refine ⟨?_, ?_, ?_, ?_⟩
  · intro pr
    simp [planBulk, List.mem_filter]
  · intro pr
    simp [planBulk, List.mem_filter, Bool.not_eq_true']
  · intro a ha hnot
    unfold executeBulk at ha
    rcases List.mem_append.mp ha with h | h
    · exact absurd h hnot
    · obtain ⟨pr, hpr, rfl⟩ := List.mem_map.mp h
      rfl
  · intro pr hpr
    have hex : assignmentExists existing templateId month pr = true := by
      unfold planBulk at hpr
      exact (List.mem_filter.mp hpr).2
    unfold executeBulk
    rw [List.filter_append]
    have hnil : ((planBulk users policy templateId month existing).created.map
        (fun pr' => (⟨"", templateId, assignerId, pr'.1.id, pr'.2.id, month,
          AssignmentStatus.PENDING⟩ : SurveyAssignment))).filter
        (fun a => decide (a.templateId = templateId ∧ a.respondentId = pr.1.id ∧
          a.targetId = pr.2.id ∧ a.month = month)) = [] := by
      rw [List.filter_eq_nil_iff]
      intro a ha
      obtain ⟨pr', hpr', rfl⟩ := List.mem_map.mp ha
      simp only [decide_eq_true_eq]
      rintro ⟨-, h1, h2, -⟩
      have hfalse : assignmentExists existing templateId month pr' = false := by
        unfold planBulk at hpr'
        have h := (List.mem_filter.mp hpr').2
        simpa using h
      rw [assignmentExists_congr existing templateId month pr' pr h1 h2] at hfalse
      simp [hfalse] at hex
    rw [hnil, List.append_nil]

/-- Witness for C9: three guardians, two with linked children; the pair
occupying an existing Assignment tuple is classified `alreadyExists`,
the other is `created`. -/
theorem claim_C9_witness :
    (guardianOne, playerOne) ∈ (planBulk [guardianOne, guardianTwo, guardianThree,
        playerOne, playerTwo] BulkPolicy.GUARDIANS_TO_CHILDREN ("t1") ("2024-01")
        [existingAssignmentG1]).alreadyExists ∧
    (guardianTwo, playerTwo) ∈ (planBulk [guardianOne, guardianTwo, guardianThree,
        playerOne, playerTwo] BulkPolicy.GUARDIANS_TO_CHILDREN ("t1") ("2024-01")
        [existingAssignmentG1]).created := by
  have h := claim_C9_theorem [guardianOne, guardianTwo, guardianThree, playerOne,
    playerTwo] BulkPolicy.GUARDIANS_TO_CHILDREN ("t1") ("2024-01") ("adm")
    [existingAssignmentG1]
  exact ⟨(h.1 _).mpr (by decide), (h.2.1 _).mpr (by decide)⟩
